import Mathlib

/-!
Verification of the Bayesian optimization core of the adaptive-quiz-system
repository: the objective function, the feasibility predicate, the evaluation
bridge, the ask/evaluate/tell optimization loop with best-so-far tracking,
early stopping, and periodic checkpointing
(`scripts/optimization/bayesian_optimize_weights.py` and
`scripts/optimization/evaluate_config.py`).

Real-valued quantities are modelled as rationals. The external surrogate
optimizer is modelled by the sequence of candidates its `ask()` calls return
during a run, and the external simulation process by the sequence of outcomes
its invocations produce; both are opaque collaborators whose realized behavior
in any single run is some fixed sequence.
-/

namespace QuizOpt

/-- A candidate configuration: the ordered 6-tuple drawn from PARAM_SPACE
(`initial_weight`, `phase1_end`, `phase2_end`, `phase1_target`,
`phase2_target`, `max_weight`). The two phase boundaries are integers in the
source space declaration; all comparisons on them are numeric, so they are
carried as rationals alongside the real-valued fields. -/
structure Config where
  initial_weight : ℚ
  phase1_end : ℚ
  phase2_end : ℚ
  phase1_target : ℚ
  phase2_target : ℚ
  max_weight : ℚ
deriving DecidableEq

/-- CORRELATION_WEIGHT = 0.6 -/
def CORRELATION_WEIGHT : ℚ := 6/10

/-- RMSE_WEIGHT = 0.3 -/
def RMSE_WEIGHT : ℚ := 3/10

/-- RMSE_PENALTY_THRESHOLD = 0.75 -/
def RMSE_PENALTY_THRESHOLD : ℚ := 3/4

/-- EARLY_STOP_PATIENCE = 25 -/
def EARLY_STOP_PATIENCE : ℕ := 25

/-- `calculate_objective(correlation, rmse)` from
bayesian_optimize_weights.py lines 60-85. -/
def calculate_objective (correlation rmse : ℚ) : ℚ :=
  let correlation_score := correlation * CORRELATION_WEIGHT
  let rmse_score := (8/10 - rmse) * RMSE_WEIGHT
  let rmse_penalty := max 0 ((rmse - RMSE_PENALTY_THRESHOLD) * 2)
  correlation_score + rmse_score - rmse_penalty

/-- `validate_config(params)` from bayesian_optimize_weights.py lines 88-109:
constraint 1 rejects `phase2_end <= phase1_end + 3`, constraint 2 rejects any
violation of the strict chain
`initial_weight < phase1_target < phase2_target < max_weight`. -/
def validate_config (params : Config) : Bool :=
  if params.phase2_end ≤ params.phase1_end + 3 then
    false
  else if ¬ (params.initial_weight < params.phase1_target ∧
      params.phase1_target < params.phase2_target ∧
      params.phase2_target < params.max_weight) then
    false
  else
    true

/-- Raw metrics parsed from the simulation result artifact
(`correlation`, `rmse`, `mae`, `performance.avgRegret`). -/
structure RawMetrics where
  correlation : ℚ
  rmse : ℚ
  mae : ℚ
  regret : ℚ
deriving DecidableEq

/-- Outcome of one invocation of the external monte-carlo process, as seen by
`evaluate_config` (evaluate_config.py lines 56-128): nonzero exit status with
captured stderr, no matching result file, timeout, any other parsing or IO
exception, or a fully parsed success. -/
inductive EvalOutcome where
  | processError (stderr : String)
  | noResultFile
  | timeout
  | exn (msg : String)
  | success (m : RawMetrics)
deriving DecidableEq

/-- The dict returned by `evaluate_config`: the four metric entries plus the
optional `error` entry (present exactly on the failure paths). -/
structure EvalResult where
  correlation : ℚ
  rmse : ℚ
  mae : ℚ
  regret : ℚ
  error : Option String
deriving DecidableEq

/-- `evaluate_config(...)` from evaluate_config.py lines 15-128, as a function
of the external invocation outcome. Every failure path returns the fixed
failure metrics `correlation=0.0, rmse=999.0, mae=999.0, regret=999.0`
together with an `error` entry; the success path returns the parsed metrics
with no `error` entry. -/
def evaluate_config (o : EvalOutcome) : EvalResult :=
  match o with
  | .processError stderr =>
      { correlation := 0, rmse := 999, mae := 999, regret := 999,
        error := some stderr }
  | .noResultFile =>
      { correlation := 0, rmse := 999, mae := 999, regret := 999,
        error := some "No results file" }
  | .timeout =>
      { correlation := 0, rmse := 999, mae := 999, regret := 999,
        error := some "Timeout" }
  | .exn msg =>
      { correlation := 0, rmse := 999, mae := 999, regret := 999,
        error := some msg }
  | .success m =>
      { correlation := m.correlation, rmse := m.rmse, mae := m.mae,
        regret := m.regret, error := none }

/-- `evaluate_with_objective(params)` from bayesian_optimize_weights.py lines
112-160, as a function of the candidate and the external evaluation outcome:
return 999.0 if the constraints are violated (without running the evaluator),
999.0 if the evaluation reports an error, and the negated
`calculate_objective` value otherwise. -/
def evaluate_with_objective (params : Config) (o : EvalOutcome) : ℚ :=
  if ¬ validate_config params then
    999
  else
    let results := evaluate_config o
    if results.error.isSome then
      999
    else
      -(calculate_objective results.correlation results.rmse)

/-- Instrumented copy of `evaluate_with_objective` whose second component
records whether control reached the branch that invokes
`calculate_objective`. -/
def evaluate_with_objective_instr (params : Config) (o : EvalOutcome) :
    ℚ × Bool :=
  if ¬ validate_config params then
    (999, false)
  else
    let results := evaluate_config o
    if results.error.isSome then
      (999, false)
    else
      (-(calculate_objective results.correlation results.rmse), true)

/-- One trial record appended to `all_results` per iteration
(bayesian_optimize_weights.py lines 233-245): 1-based iteration index, the
suggested candidate, the (maximize-sign) objective, and the feasibility
flag. -/
structure Trial where
  iteration : ℕ
  params : Config
  objective : ℚ
  is_valid : Bool
deriving DecidableEq

/-- Filesystem behavior for one `save_results` call: whether opening and
writing the JSON results file succeeds, and whether plot creation succeeds. -/
structure SaveEnv where
  writeOk : Bool
  plotOk : Bool
deriving DecidableEq

/-- The self-contained snapshot written by one successful `save_results` call
(lines 296-310): the best candidate (or null), the objective of the best
trial record (or null), the full trial history, and whether the convergence
plot was also produced. -/
structure Snapshot where
  best_config : Option Config
  best_objective : Option ℚ
  all_results : List Trial
  plot_ok : Bool
deriving DecidableEq

/-- `save_results(all_results, best_config, best_metrics, optimizer)` from
lines 288-343. The directory creation, file open, and `json.dump` are not
guarded by any handler, so a write failure raises; only the plot-creation
block is wrapped in try/except (its failure is merely logged). -/
def save_results (all_results : List Trial) (best_config : Option Config)
    (best_metrics : Option Trial) (env : SaveEnv) : Except String Snapshot :=
  if env.writeOk then
    Except.ok
      { best_config := best_config
        best_objective := best_metrics.map (fun t => t.objective)
        all_results := all_results
        plot_ok := env.plotOk }
  else
    Except.error "write failed"

/-- Mutable state of `run_optimization` (lines 210-214), together with the
reified sequences of `optimizer.tell` calls and successful checkpoint
snapshots made so far. -/
structure LoopState where
  all_results : List Trial
  best_objective : ℚ
  best_config : Option Config
  best_metrics : Option Trial
  no_improvement_count : ℕ
  tells : List (Config × ℚ)
  saves : List Snapshot
deriving DecidableEq

/-- How a run of `run_optimization` ended: the early-stopping break, normal
exhaustion of the iteration budget, or an uncaught exception raised by a
checkpoint write (which propagates out of the loop). -/
inductive Outcome where
  | stoppedEarly
  | stoppedBudget
  | aborted (msg : String)
deriving DecidableEq

/-- The observable result of `run_optimization`: final state, reified
tell/checkpoint histories, and how the loop ended. -/
structure RunResult where
  all_results : List Trial
  best_objective : ℚ
  best_config : Option Config
  best_metrics : Option Trial
  no_improvement_count : ℕ
  tells : List (Config × ℚ)
  saves : List Snapshot
  outcome : Outcome
deriving DecidableEq

/-- Package a final loop state and an outcome as a `RunResult`. -/
def mkResult (st : LoopState) (o : Outcome) : RunResult :=
  { all_results := st.all_results
    best_objective := st.best_objective
    best_config := st.best_config
    best_metrics := st.best_metrics
    no_improvement_count := st.no_improvement_count
    tells := st.tells
    saves := st.saves
    outcome := o }

/-- The environment of one run: the candidate returned by `optimizer.ask()`
at each 0-based iteration, the outcome of the external evaluation at each
iteration, and the filesystem behavior for the checkpoint attempted at each
iteration. -/
structure LoopEnv where
  oracle : ℕ → Config
  evalEnv : ℕ → EvalOutcome
  saveEnv : ℕ → SaveEnv

/-- The body of one iteration of the optimization loop (lines 217-255): ask,
evaluate, tell, append a trial record, then either update best-so-far and
reset the no-improvement counter (on strict improvement) or increment the
counter. -/
def iterStep (env : LoopEnv) (i : ℕ) (st : LoopState) : LoopState :=
  let suggested_params := env.oracle i
  let neg_objective := evaluate_with_objective suggested_params (env.evalEnv i)
  let objective := -neg_objective
  let trial : Trial :=
    { iteration := i + 1
      params := suggested_params
      objective := objective
      is_valid := validate_config suggested_params }
  let st1 : LoopState :=
    { st with
        tells := st.tells ++ [(suggested_params, neg_objective)]
        all_results := st.all_results ++ [trial] }
  if st1.best_objective < objective then
    { st1 with
        best_objective := objective
        best_config := some suggested_params
        best_metrics := some trial
        no_improvement_count := 0 }
  else
    { st1 with no_improvement_count := st1.no_improvement_count + 1 }

/-- The optimization loop (lines 217-268), recursing on the remaining fuel
`r` with `i` the current 0-based iteration index. After each iteration the
early-stopping check runs first (its break skips the checkpoint of that
iteration); then a checkpoint is attempted when the 1-based index is a
multiple of 10, and a raised write error aborts the loop. -/
def runLoopAux (patience : ℕ) (env : LoopEnv) :
    ℕ → ℕ → LoopState → RunResult
  | 0, _, st => mkResult st Outcome.stoppedBudget
  | r + 1, i, st =>
    let st1 := iterStep env i st
    if patience ≤ st1.no_improvement_count then
      mkResult st1 Outcome.stoppedEarly
    else if (i + 1) % 10 = 0 then
      match save_results st1.all_results st1.best_config st1.best_metrics
          (env.saveEnv i) with
      | .error e => mkResult st1 (Outcome.aborted e)
      | .ok snap =>
          runLoopAux patience env r (i + 1)
            { st1 with saves := st1.saves ++ [snap] }
    else
      runLoopAux patience env r (i + 1) st1

/-- The state initialized at lines 210-214: empty history, best objective
-999.0, no best candidate, counter 0. -/
def initialState : LoopState :=
  { all_results := []
    best_objective := -999
    best_config := none
    best_metrics := none
    no_improvement_count := 0
    tells := []
    saves := [] }

/-- `run_optimization` with the early-stopping patience exposed as a
parameter (the source reads the module constant `EARLY_STOP_PATIENCE`). -/
def run_optimization_patience (patience n_iter : ℕ) (env : LoopEnv) :
    RunResult :=
  runLoopAux patience env n_iter 0 initialState

/-- `run_optimization(n_iter, n_initial)` from lines 167-281 (`n_initial`
only seeds the opaque surrogate optimizer, which is abstracted by
`env.oracle`). -/
def run_optimization (n_iter : ℕ) (env : LoopEnv) : RunResult :=
  run_optimization_patience EARLY_STOP_PATIENCE n_iter env

/-- The terminal summary printed by `main` (lines 375-386): either the best
configuration and its objective, or the "No valid configuration found!"
message. -/
inductive Report where
  | bestFound (config : Config) (objective : Option ℚ)
  | noValidConfig
deriving DecidableEq

/-- The terminal report as a function of the run result. -/
def mainReport (results : RunResult) : Report :=
  match results.best_config with
  | some c => Report.bestFound c (results.best_metrics.map (fun t => t.objective))
  | none => Report.noValidConfig

/-- Observable result of a completed `main` run: the loop result, the final
snapshot written after the loop, and the terminal report. -/
structure MainResult where
  run : RunResult
  finalSave : Snapshot
  report : Report

/-- `main()` from lines 350-390: run the optimization, write the final
results unconditionally, print the summary. An exception propagating out of
the loop or out of the final `save_results` crashes the program
(`Except.error`). -/
def main_run (n_iter : ℕ) (env : LoopEnv) (finalSaveEnv : SaveEnv) :
    Except String MainResult :=
  let results := run_optimization n_iter env
  match results.outcome with
  | .aborted e => Except.error e
  | _ =>
    match save_results results.all_results results.best_config
        results.best_metrics finalSaveEnv with
    | .error e => Except.error e
    | .ok snap =>
        Except.ok { run := results, finalSave := snap,
                    report := mainReport results }

/-- The (maximize-sign) objective recorded for iteration `i`:
`objective = -neg_objective` at line 232. -/
def objAt (env : LoopEnv) (i : ℕ) : ℚ :=
  -(evaluate_with_objective (env.oracle i) (env.evalEnv i))

/-- The trial record appended at iteration `i`. -/
def trialAt (env : LoopEnv) (i : ℕ) : Trial :=
  { iteration := i + 1
    params := env.oracle i
    objective := objAt env i
    is_valid := validate_config (env.oracle i) }

/-- The trial history after `m` iterations. -/
def trace (env : LoopEnv) : ℕ → List Trial
  | 0 => []
  | m + 1 => trace env m ++ [trialAt env m]

/-- The history of `optimizer.tell` calls after `m` iterations. -/
def tellsOf (env : LoopEnv) : ℕ → List (Config × ℚ)
  | 0 => []
  | m + 1 =>
      tellsOf env m ++
        [(env.oracle m, evaluate_with_objective (env.oracle m) (env.evalEnv m))]

/-- The best-so-far portion of the loop state. -/
structure SimState where
  best_objective : ℚ
  best_config : Option Config
  best_metrics : Option Trial
  no_improvement_count : ℕ
deriving DecidableEq

/-- Projection of the full loop state onto its best-so-far portion. -/
def stSim (st : LoopState) : SimState :=
  { best_objective := st.best_objective
    best_config := st.best_config
    best_metrics := st.best_metrics
    no_improvement_count := st.no_improvement_count }

/-- One iteration of the best-so-far update (lines 247-255), in isolation. -/
def simStep (env : LoopEnv) (i : ℕ) (s : SimState) : SimState :=
  if s.best_objective < objAt env i then
    { best_objective := objAt env i
      best_config := some (env.oracle i)
      best_metrics := some (trialAt env i)
      no_improvement_count := 0 }
  else
    { s with no_improvement_count := s.no_improvement_count + 1 }

/-- The best-so-far state after `m` iterations. -/
def simState (env : LoopEnv) : ℕ → SimState
  | 0 =>
    { best_objective := -999
      best_config := none
      best_metrics := none
      no_improvement_count := 0 }
  | m + 1 => simStep env m (simState env m)

/-- The snapshot a successful checkpoint at the end of iteration `i`
(0-based) writes: the in-memory best-so-far and history at that point. -/
def snapAt (env : LoopEnv) (i : ℕ) : Snapshot :=
  { best_config := (simState env (i + 1)).best_config
    best_objective := (simState env (i + 1)).best_metrics.map
      (fun t => t.objective)
    all_results := trace env (i + 1)
    plot_ok := (env.saveEnv i).plotOk }

/-- The checkpoint snapshots accumulated after `m` iterations, assuming every
reached checkpoint write succeeds and no early stop interrupts: one snapshot
at each multiple-of-10 1-based iteration. -/
def savesUpTo (env : LoopEnv) : ℕ → List Snapshot
  | 0 => []
  | m + 1 =>
      savesUpTo env m ++ (if (m + 1) % 10 = 0 then [snapAt env m] else [])

/-- All checkpoint writes in the environment succeed. -/
def SavesOk (env : LoopEnv) : Prop :=
  ∀ j, (env.saveEnv j).writeOk = true

/-- The loop state of the run is aligned with the model after `i`
iterations. -/
def Aligned (env : LoopEnv) (i : ℕ) (st : LoopState) : Prop :=
  st.all_results = trace env i ∧ st.tells = tellsOf env i ∧
    st.saves = savesUpTo env i ∧ stSim st = simState env i

/-- A candidate violating constraint 1 (`phase2_end <= phase1_end + 3`). -/
def infeasibleConfig : Config :=
  { initial_weight := 1/2
    phase1_end := 10
    phase2_end := 10
    phase1_target := 13/20
    phase2_target := 17/20
    max_weight := 9/10 }

/-- A candidate satisfying both feasibility constraints. -/
def feasibleConfig : Config :=
  { initial_weight := 1/2
    phase1_end := 10
    phase2_end := 20
    phase1_target := 13/20
    phase2_target := 17/20
    max_weight := 9/10 }

/-- A save environment in which both the JSON write and the plot succeed. -/
def saveAllOk : SaveEnv := { writeOk := true, plotOk := true }

/-- A run environment in which every suggested candidate is infeasible and
every checkpoint write succeeds. -/
def envAllInfeasible : LoopEnv :=
  { oracle := fun _ => infeasibleConfig
    evalEnv := fun _ => EvalOutcome.timeout
    saveEnv := fun _ => saveAllOk }

/-- A run environment whose single successful (and improving) evaluation is
at 0-based iteration 4 (1-based iteration 5), every other iteration failing,
all checkpoint writes succeeding: with patience 25 the loop early-stops at
1-based iteration 30, a multiple of 10. -/
def envImproveThenFail : LoopEnv :=
  { oracle := fun _ => feasibleConfig
    evalEnv := fun i =>
      if i = 4 then
        EvalOutcome.success
          { correlation := 1/2, rmse := 1/2, mae := 0, regret := 0 }
      else
        EvalOutcome.processError "simulation failed"
    saveEnv := fun _ => saveAllOk }

/-- Every checkpoint attempted at a 0-based iteration in `[lo, hi)` has a
succeeding JSON write. -/
def ChkOk (env : LoopEnv) (lo hi : ℕ) : Prop :=
  ∀ m, lo ≤ m → m < hi → (m + 1) % 10 = 0 → (env.saveEnv m).writeOk = true

/-- A run environment in which every checkpoint JSON write fails. -/
def envBadSave : LoopEnv :=
  { oracle := fun _ => infeasibleConfig
    evalEnv := fun _ => EvalOutcome.timeout
    saveEnv := fun _ => { writeOk := false, plotOk := true } }

/-! ## Basic lemmas about the evaluation pipeline -/

theorem evaluate_with_objective_fst_instr (params : Config) (o : EvalOutcome) :
    evaluate_with_objective params o =
      (evaluate_with_objective_instr params o).1 := by
  unfold evaluate_with_objective evaluate_with_objective_instr
  split
  · rfl
  · dsimp only
    split <;> rfl

theorem evaluate_with_objective_invalid (params : Config) (o : EvalOutcome)
    (h : validate_config params = false) :
    evaluate_with_objective params o = 999 ∧
      evaluate_with_objective_instr params o = (999, false) := by
  unfold evaluate_with_objective evaluate_with_objective_instr
  rw [h]
  simp

theorem evaluate_with_objective_error (params : Config) (o : EvalOutcome)
    (h : (evaluate_config o).error.isSome = true) :
    evaluate_with_objective params o = 999 ∧
      (evaluate_with_objective_instr params o).2 = false := by
  unfold evaluate_with_objective evaluate_with_objective_instr
  split
  · exact ⟨rfl, rfl⟩
  · rw [if_pos h, if_pos h]
    exact ⟨rfl, rfl⟩

theorem objAt_penalty (env : LoopEnv) (i : ℕ)
    (h : validate_config (env.oracle i) = false ∨
      (evaluate_config (env.evalEnv i)).error.isSome = true) :
    objAt env i = -999 := by
  unfold objAt
  rcases h with h | h
  · rw [(evaluate_with_objective_invalid _ _ h).1]
  · rw [(evaluate_with_objective_error _ _ h).1]

theorem evaluate_with_objective_success (params : Config) (o : EvalOutcome)
    (hv : validate_config params = true)
    (he : (evaluate_config o).error = none) :
    evaluate_with_objective params o =
      -(calculate_objective (evaluate_config o).correlation
          (evaluate_config o).rmse) := by
  simp [evaluate_with_objective, hv, he]

/-! ## Lemmas about the iteration traces -/

theorem trace_length (env : LoopEnv) : ∀ m, (trace env m).length = m := by
  intro m
  induction m with
  | zero => rfl
  | succ m ih => simp [trace, ih]

theorem trace_take (env : LoopEnv) :
    ∀ k m, m ≤ k → (trace env k).take m = trace env m := by
  intro k
  induction k with
  | zero =>
    intro m hm
    interval_cases m
    rfl
  | succ k ih =>
    intro m hm
    rcases Nat.lt_or_ge m (k + 1) with h | h
    · have hmk : m ≤ k := Nat.lt_succ_iff.mp h
      rw [trace, List.take_append_of_le_length (by rw [trace_length]; exact hmk)]
      exact ih m hmk
    · have : m = k + 1 := le_antisymm hm h
      subst this
      rw [List.take_of_length_le (by rw [trace_length])]

theorem mem_trace (env : LoopEnv) :
    ∀ k t, t ∈ trace env k ↔ ∃ j, j < k ∧ t = trialAt env j := by
  intro k
  induction k with
  | zero => simp [trace]
  | succ k ih =>
    intro t
    simp only [trace, List.mem_append, List.mem_singleton, ih]
    constructor
    · rintro (⟨j, hj, rfl⟩ | rfl)
      · exact ⟨j, Nat.lt_succ_of_lt hj, rfl⟩
      · exact ⟨k, Nat.lt_succ_self k, rfl⟩
    · rintro ⟨j, hj, rfl⟩
      rcases Nat.lt_succ_iff_lt_or_eq.mp hj with h | rfl
      · exact Or.inl ⟨j, h, rfl⟩
      · exact Or.inr rfl

theorem tellsOf_eq_map (env : LoopEnv) :
    ∀ m, tellsOf env m =
      (trace env m).map (fun t => (t.params, -t.objective)) := by
  intro m
  induction m with
  | zero => rfl
  | succ m ih =>
    simp only [tellsOf, trace, List.map_append, ih, List.map_cons,
      List.map_nil, trialAt, neg_neg, objAt]

/-! ## Lemmas about one loop iteration -/

theorem iterStep_all_results (env : LoopEnv) (i : ℕ) (st : LoopState) :
    (iterStep env i st).all_results = st.all_results ++ [trialAt env i] := by
  unfold iterStep trialAt objAt
  dsimp only
  split <;> rfl

theorem iterStep_tells (env : LoopEnv) (i : ℕ) (st : LoopState) :
    (iterStep env i st).tells =
      st.tells ++
        [(env.oracle i,
          evaluate_with_objective (env.oracle i) (env.evalEnv i))] := by
  unfold iterStep
  dsimp only
  split <;> rfl

theorem iterStep_saves (env : LoopEnv) (i : ℕ) (st : LoopState) :
    (iterStep env i st).saves = st.saves := by
  unfold iterStep
  dsimp only
  split <;> rfl

theorem iterStep_sim (env : LoopEnv) (i : ℕ) (st : LoopState) :
    stSim (iterStep env i st) = simStep env i (stSim st) := by
  unfold iterStep simStep stSim trialAt objAt
  dsimp only
  by_cases h : st.best_objective <
      -(evaluate_with_objective (env.oracle i) (env.evalEnv i))
  · rw [if_pos h, if_pos h]
  · rw [if_neg h, if_neg h]

/-! ## Lemmas about the best-so-far state over time -/

theorem simState_succ_best (env : LoopEnv) (m : ℕ) :
    (simState env (m + 1)).best_objective =
      max (simState env m).best_objective (objAt env m) := by
  by_cases h : (simState env m).best_objective < objAt env m
  · simp [simState, simStep, h, max_eq_right (le_of_lt h)]
  · simp [simState, simStep, h, max_eq_left (le_of_not_lt h)]

theorem simState_best_mono (env : LoopEnv) (m : ℕ) :
    (simState env m).best_objective ≤
      (simState env (m + 1)).best_objective := by
  rw [simState_succ_best]
  exact le_max_left _ _

theorem simState_best_le_of_lt (env : LoopEnv) :
    ∀ m j, j < m → objAt env j ≤ (simState env m).best_objective := by
  intro m
  induction m with
  | zero => intro j hj; exact absurd hj (Nat.not_lt_zero j)
  | succ m ih =>
    intro j hj
    rcases Nat.lt_succ_iff_lt_or_eq.mp hj with h | rfl
    · exact le_trans (ih j h) (simState_best_mono env m)
    · rw [simState_succ_best]
      exact le_max_right _ _

theorem simState_neg999_le (env : LoopEnv) :
    ∀ m, -999 ≤ (simState env m).best_objective := by
  intro m
  induction m with
  | zero => exact le_refl _
  | succ m ih => exact le_trans ih (simState_best_mono env m)

theorem simState_best_eq_foldl (env : LoopEnv) :
    ∀ m, (simState env m).best_objective =
      ((trace env m).map (fun t => t.objective)).foldl max (-999) := by
  intro m
  induction m with
  | zero => rfl
  | succ m ih =>
    rw [simState_succ_best, trace, List.map_append, List.foldl_append, ih]
    rfl

theorem simState_config_mono (env : LoopEnv) (m : ℕ) (c : Config)
    (h : (simState env m).best_config = some c) :
    ∃ c2, (simState env (m + 1)).best_config = some c2 := by
  by_cases hlt : (simState env m).best_objective < objAt env m
  · exact ⟨env.oracle m, by simp [simState, simStep, hlt]⟩
  · exact ⟨c, by simp [simState, simStep, hlt]; exact h⟩

theorem simState_config_none_iff (env : LoopEnv) :
    ∀ m, (simState env m).best_config = none ↔
      (simState env m).best_objective = -999 := by
  intro m
  induction m with
  | zero => simp [simState]
  | succ m ih =>
    by_cases hlt : (simState env m).best_objective < objAt env m
    · have h9 : -999 < objAt env m :=
        lt_of_le_of_lt (simState_neg999_le env m) hlt
      simp [simState, simStep, hlt]
      exact fun h => absurd h.symm (ne_of_lt h9)
    · simp only [simState, simStep, if_neg hlt]
      exact ih

theorem simState_metrics_objective (env : LoopEnv) :
    ∀ m, (simState env m).best_metrics.map (fun t => t.objective) =
      (simState env m).best_config.map
        (fun _ => (simState env m).best_objective) := by
  intro m
  induction m with
  | zero => rfl
  | succ m ih =>
    by_cases hlt : (simState env m).best_objective < objAt env m
    · simp [simState, simStep, hlt, trialAt]
    · simp only [simState, simStep, if_neg hlt]
      exact ih

theorem simState_first_attainer (env : LoopEnv) :
    ∀ m c, (simState env m).best_config = some c →
      ∃ j, j < m ∧ c = env.oracle j ∧
        objAt env j = (simState env m).best_objective ∧
        (simState env m).best_metrics = some (trialAt env j) ∧
        ∀ i, i < j → objAt env i < (simState env m).best_objective := by
  intro m
  induction m with
  | zero => intro c h; exact absurd h (by simp [simState])
  | succ m ih =>
    intro c hc
    by_cases hlt : (simState env m).best_objective < objAt env m
    · have hc2 : c = env.oracle m := by
        have : some (env.oracle m) = some c := by
          rw [← hc]; simp [simState, simStep, hlt]
        exact (Option.some_injective _ this).symm
      refine ⟨m, Nat.lt_succ_self m, hc2, ?_, ?_, ?_⟩
      · simp [simState, simStep, hlt]
      · simp [simState, simStep, hlt]
      · intro i hi
        have h1 : objAt env i ≤ (simState env m).best_objective :=
          simState_best_le_of_lt env m i hi
        have h2 : (simState env (m + 1)).best_objective = objAt env m := by
          simp [simState, simStep, hlt]
        rw [h2]
        exact lt_of_le_of_lt h1 hlt
    · have hbc : (simState env (m + 1)).best_config =
          (simState env m).best_config := by
        simp [simState, simStep, hlt]
      have hbo : (simState env (m + 1)).best_objective =
          (simState env m).best_objective := by
        simp [simState, simStep, hlt]
      have hbm : (simState env (m + 1)).best_metrics =
          (simState env m).best_metrics := by
        simp [simState, simStep, hlt]
      rw [hbc] at hc
      rw [hbo, hbm]
      obtain ⟨j, hj, hcj, hobj, hmet, hfirst⟩ := ih c hc
      exact ⟨j, Nat.lt_succ_of_lt hj, hcj, hobj, hmet, hfirst⟩

/-! ## The main correspondence between the loop and the model -/

theorem chkOk_vacuous (env : LoopEnv) (i j : ℕ) (h : j ≤ i) :
    ChkOk env i j := by
  intro m hm1 hm2 _
  exact absurd hm2 (by omega)

theorem chkOk_extend (env : LoopEnv) (i j : ℕ)
    (h : ChkOk env (i + 1) j)
    (hi : (i + 1) % 10 = 0 → (env.saveEnv i).writeOk = true) :
    ChkOk env i j := by
  intro m hm1 hm2 hm3
  rcases Nat.eq_or_lt_of_le hm1 with rfl | hlt
  · exact hi hm3
  · exact h m hlt hm2 hm3

theorem runLoopAux_spec (patience : ℕ) (env : LoopEnv) :
    ∀ (r i : ℕ) (st : LoopState), Aligned env i st →
      st.no_improvement_count < patience →
      ∃ k, i ≤ k ∧ k ≤ i + r ∧
        (runLoopAux patience env r i st).all_results = trace env k ∧
        (runLoopAux patience env r i st).tells = tellsOf env k ∧
        (runLoopAux patience env r i st).best_objective =
          (simState env k).best_objective ∧
        (runLoopAux patience env r i st).best_config =
          (simState env k).best_config ∧
        (runLoopAux patience env r i st).best_metrics =
          (simState env k).best_metrics ∧
        (runLoopAux patience env r i st).no_improvement_count =
          (simState env k).no_improvement_count ∧
        (∀ m, i ≤ m → m < k →
          (simState env m).no_improvement_count < patience) ∧
        (((runLoopAux patience env r i st).outcome = Outcome.stoppedBudget ∧
            k = i + r ∧
            (simState env k).no_improvement_count < patience ∧
            (runLoopAux patience env r i st).saves = savesUpTo env k ∧
            ChkOk env i k) ∨
         ((runLoopAux patience env r i st).outcome = Outcome.stoppedEarly ∧
            i < k ∧
            (simState env k).no_improvement_count = patience ∧
            (runLoopAux patience env r i st).saves = savesUpTo env (k - 1) ∧
            ChkOk env i (k - 1)) ∨
         ((runLoopAux patience env r i st).outcome =
              Outcome.aborted "write failed" ∧
            i < k ∧ k % 10 = 0 ∧
            (env.saveEnv (k - 1)).writeOk = false ∧
            (simState env k).no_improvement_count < patience ∧
            (runLoopAux patience env r i st).saves = savesUpTo env (k - 1) ∧
            ChkOk env i (k - 1))) := by
  intro r
  induction r with
  | zero =>
    intro i st hA hcnt
    obtain ⟨hres, htel, hsav, hsim⟩ := hA
    have hbo : st.best_objective = (simState env i).best_objective := by
      rw [← hsim]; rfl
    have hbc : st.best_config = (simState env i).best_config := by
      rw [← hsim]; rfl
    have hbm : st.best_metrics = (simState env i).best_metrics := by
      rw [← hsim]; rfl
    have hcntEq : st.no_improvement_count =
        (simState env i).no_improvement_count := by
      rw [← hsim]; rfl
    refine ⟨i, le_refl i, by omega, ?_, ?_, ?_, ?_, ?_, ?_, ?_, ?_⟩
    · simpa [runLoopAux, mkResult] using hres
    · simpa [runLoopAux, mkResult] using htel
    · simpa [runLoopAux, mkResult] using hbo
    · simpa [runLoopAux, mkResult] using hbc
    · simpa [runLoopAux, mkResult] using hbm
    · simpa [runLoopAux, mkResult] using hcntEq
    · intro m hm1 hm2
      exact absurd hm2 (by omega)
    · refine Or.inl ⟨rfl, by omega, ?_, ?_, chkOk_vacuous env i i (le_refl i)⟩
      · rw [← hcntEq]; exact hcnt
      · simpa [runLoopAux, mkResult] using hsav
  | succ r ih =>
    intro i st hA hcnt
    obtain ⟨hres, htel, hsav, hsim⟩ := hA
    have hcntEq : st.no_improvement_count =
        (simState env i).no_improvement_count := by
      rw [← hsim]; rfl
    have hcnt0 : (simState env i).no_improvement_count < patience := by
      rw [← hcntEq]; exact hcnt
    have h1res : (iterStep env i st).all_results = trace env (i + 1) := by
      rw [iterStep_all_results, hres]; rfl
    have h1tel : (iterStep env i st).tells = tellsOf env (i + 1) := by
      rw [iterStep_tells, htel]; rfl
    have h1sav : (iterStep env i st).saves = savesUpTo env i := by
      rw [iterStep_saves, hsav]
    have h1sim : stSim (iterStep env i st) = simState env (i + 1) := by
      rw [iterStep_sim, hsim]; rfl
    have h1bo : (iterStep env i st).best_objective =
        (simState env (i + 1)).best_objective := by
      rw [← h1sim]; rfl
    have h1bc : (iterStep env i st).best_config =
        (simState env (i + 1)).best_config := by
      rw [← h1sim]; rfl
    have h1bm : (iterStep env i st).best_metrics =
        (simState env (i + 1)).best_metrics := by
      rw [← h1sim]; rfl
    have h1cnt : (iterStep env i st).no_improvement_count =
        (simState env (i + 1)).no_improvement_count := by
      rw [← h1sim]; rfl
    have hdic : (simState env (i + 1)).no_improvement_count = 0 ∨
        (simState env (i + 1)).no_improvement_count =
          (simState env i).no_improvement_count + 1 := by
      by_cases him : (simState env i).best_objective < objAt env i
      · left; simp [simState, simStep, him]
      · right; simp [simState, simStep, him]
    by_cases hstop : patience ≤ (iterStep env i st).no_improvement_count
    · -- the early-stopping break fires at 1-based iteration i+1
      have hred : runLoopAux patience env (r + 1) i st =
          mkResult (iterStep env i st) Outcome.stoppedEarly := by
        simp only [runLoopAux]
        rw [if_pos hstop]
      have hstop2 : patience ≤ (simState env (i + 1)).no_improvement_count := by
        rw [← h1cnt]; exact hstop
      refine ⟨i + 1, Nat.le_succ i, by omega, ?_, ?_, ?_, ?_, ?_, ?_, ?_, ?_⟩
      · rw [hred]; simpa [mkResult] using h1res
      · rw [hred]; simpa [mkResult] using h1tel
      · rw [hred]; simpa [mkResult] using h1bo
      · rw [hred]; simpa [mkResult] using h1bc
      · rw [hred]; simpa [mkResult] using h1bm
      · rw [hred]; simpa [mkResult] using h1cnt
      · intro m hm1 hm2
        have : m = i := by omega
        subst this
        exact hcnt0
      · refine Or.inr (Or.inl ⟨?_, Nat.lt_succ_self i, ?_, ?_, ?_⟩)
        · rw [hred]; rfl
        · rcases hdic with h | h <;> omega
        · rw [hred, Nat.add_sub_cancel]
          simpa [mkResult] using h1sav
        · rw [Nat.add_sub_cancel]
          exact chkOk_vacuous env i i (le_refl i)
    · -- no early stop this iteration
      have hcnt1 : (iterStep env i st).no_improvement_count < patience :=
        lt_of_not_ge hstop
      by_cases hmul : (i + 1) % 10 = 0
      · -- a checkpoint is attempted at 1-based iteration i+1
        by_cases hw : (env.saveEnv i).writeOk = true
        · -- the checkpoint write succeeds, the loop continues
          have hsr : save_results (iterStep env i st).all_results
              (iterStep env i st).best_config (iterStep env i st).best_metrics
              (env.saveEnv i) = Except.ok
                { best_config := (iterStep env i st).best_config
                  best_objective := (iterStep env i st).best_metrics.map
                    (fun t => t.objective)
                  all_results := (iterStep env i st).all_results
                  plot_ok := (env.saveEnv i).plotOk } := by
            simp [save_results, hw]
          have hsnap :
              ({ best_config := (iterStep env i st).best_config
                 best_objective := (iterStep env i st).best_metrics.map
                   (fun t => t.objective)
                 all_results := (iterStep env i st).all_results
                 plot_ok := (env.saveEnv i).plotOk } : Snapshot) =
              snapAt env i := by
            rw [snapAt, h1bc, h1bm, h1res]
          have hred : runLoopAux patience env (r + 1) i st =
              runLoopAux patience env r (i + 1)
                { iterStep env i st with
                    saves := (iterStep env i st).saves ++ [snapAt env i] } := by
            simp only [runLoopAux]
            rw [if_neg hstop, if_pos hmul, hsr]
            rw [hsnap]
          have hA2 : Aligned env (i + 1)
              { iterStep env i st with
                  saves := (iterStep env i st).saves ++ [snapAt env i] } := by
            refine ⟨h1res, h1tel, ?_, ?_⟩
            · show (iterStep env i st).saves ++ [snapAt env i] =
                savesUpTo env (i + 1)
              rw [h1sav]
              simp [savesUpTo, hmul]
            · rw [← h1sim]; rfl
          obtain ⟨k, hk1, hk2, hc1, hc2, hc3, hc4, hc5, hc6, hbet, hdisj⟩ :=
            ih (i + 1)
              { iterStep env i st with
                  saves := (iterStep env i st).saves ++ [snapAt env i] }
              hA2 hcnt1
          refine ⟨k, by omega, by omega, ?_, ?_, ?_, ?_, ?_, ?_, ?_, ?_⟩
          · rw [hred]; exact hc1
          · rw [hred]; exact hc2
          · rw [hred]; exact hc3
          · rw [hred]; exact hc4
          · rw [hred]; exact hc5
          · rw [hred]; exact hc6
          · intro m hm1 hm2
            rcases Nat.eq_or_lt_of_le hm1 with rfl | hlt
            · exact hcnt0
            · exact hbet m hlt hm2
          · rcases hdisj with ⟨d1, d2, d3, d4, d5⟩ | ⟨d1, d2, d3, d4, d5⟩ |
                ⟨d1, d2, d3, d4, d5, d6, d7⟩
            · refine Or.inl ⟨by rw [hred]; exact d1, by omega, d3,
                by rw [hred]; exact d4, chkOk_extend env i k d5 (fun _ => hw)⟩
            · refine Or.inr (Or.inl ⟨by rw [hred]; exact d1, by omega, d3,
                by rw [hred]; exact d4,
                chkOk_extend env i (k - 1) d5 (fun _ => hw)⟩)
            · refine Or.inr (Or.inr ⟨by rw [hred]; exact d1, by omega, d3, d4,
                d5, by rw [hred]; exact d6,
                chkOk_extend env i (k - 1) d7 (fun _ => hw)⟩)
        · -- the checkpoint write fails: the exception aborts the loop
          have hwf : (env.saveEnv i).writeOk = false :=
            Bool.not_eq_true _ ▸ eq_false_of_ne_true hw
          have hsr : save_results (iterStep env i st).all_results
              (iterStep env i st).best_config (iterStep env i st).best_metrics
              (env.saveEnv i) = Except.error "write failed" := by
            simp [save_results, hwf]
          have hred : runLoopAux patience env (r + 1) i st =
              mkResult (iterStep env i st)
                (Outcome.aborted "write failed") := by
            simp only [runLoopAux]
            rw [if_neg hstop, if_pos hmul, hsr]
          refine ⟨i + 1, Nat.le_succ i, by omega, ?_, ?_, ?_, ?_, ?_, ?_, ?_,
            ?_⟩
          · rw [hred]; simpa [mkResult] using h1res
          · rw [hred]; simpa [mkResult] using h1tel
          · rw [hred]; simpa [mkResult] using h1bo
          · rw [hred]; simpa [mkResult] using h1bc
          · rw [hred]; simpa [mkResult] using h1bm
          · rw [hred]; simpa [mkResult] using h1cnt
          · intro m hm1 hm2
            have : m = i := by omega
            subst this
            exact hcnt0
          · refine Or.inr (Or.inr ⟨by rw [hred]; rfl, Nat.lt_succ_self i,
              by simpa using hmul, ?_, ?_, ?_, ?_⟩)
            · rw [Nat.add_sub_cancel]; exact hwf
            · rw [← h1cnt]; exact hcnt1
            · rw [hred, Nat.add_sub_cancel]
              simpa [mkResult] using h1sav
            · rw [Nat.add_sub_cancel]
              exact chkOk_vacuous env i i (le_refl i)
      · -- no checkpoint this iteration, the loop continues
        have hred : runLoopAux patience env (r + 1) i st =
            runLoopAux patience env r (i + 1) (iterStep env i st) := by
          simp only [runLoopAux]
          rw [if_neg hstop, if_neg hmul]
        have hA2 : Aligned env (i + 1) (iterStep env i st) := by
          refine ⟨h1res, h1tel, ?_, h1sim⟩
          rw [h1sav]
          simp [savesUpTo, hmul]
        obtain ⟨k, hk1, hk2, hc1, hc2, hc3, hc4, hc5, hc6, hbet, hdisj⟩ :=
          ih (i + 1) (iterStep env i st) hA2 hcnt1
        refine ⟨k, by omega, by omega, ?_, ?_, ?_, ?_, ?_, ?_, ?_, ?_⟩
        · rw [hred]; exact hc1
        · rw [hred]; exact hc2
        · rw [hred]; exact hc3
        · rw [hred]; exact hc4
        · rw [hred]; exact hc5
        · rw [hred]; exact hc6
        · intro m hm1 hm2
          rcases Nat.eq_or_lt_of_le hm1 with rfl | hlt
          · exact hcnt0
          · exact hbet m hlt hm2
        · rcases hdisj with ⟨d1, d2, d3, d4, d5⟩ | ⟨d1, d2, d3, d4, d5⟩ |
              ⟨d1, d2, d3, d4, d5, d6, d7⟩
          · refine Or.inl ⟨by rw [hred]; exact d1, by omega, d3,
              by rw [hred]; exact d4,
              chkOk_extend env i k d5 (fun h => absurd h hmul)⟩
          · refine Or.inr (Or.inl ⟨by rw [hred]; exact d1, by omega, d3,
              by rw [hred]; exact d4,
              chkOk_extend env i (k - 1) d5 (fun h => absurd h hmul)⟩)
          · refine Or.inr (Or.inr ⟨by rw [hred]; exact d1, by omega, d3, d4,
              d5, by rw [hred]; exact d6,
              chkOk_extend env i (k - 1) d7 (fun h => absurd h hmul)⟩)

/-! ## Derived facts -/

theorem run_optimization_eq (n : ℕ) (env : LoopEnv) :
    run_optimization n env = run_optimization_patience 25 n env := rfl

theorem simState_cnt_dichotomy (env : LoopEnv) (m : ℕ) :
    (simState env (m + 1)).no_improvement_count = 0 ∨
      (simState env (m + 1)).no_improvement_count =
        (simState env m).no_improvement_count + 1 := by
  by_cases him : (simState env m).best_objective < objAt env m
  · left; simp [simState, simStep, him]
  · right; simp [simState, simStep, him]

theorem simState_cnt_le (env : LoopEnv) :
    ∀ m, (simState env m).no_improvement_count ≤ m := by
  intro m
  induction m with
  | zero => exact le_refl 0
  | succ m ih =>
    rcases simState_cnt_dichotomy env m with h | h <;> omega

theorem simState_allPenalty (env : LoopEnv) :
    ∀ m, (∀ j, j < m → objAt env j = -999) →
      simState env m =
        { best_objective := -999, best_config := none, best_metrics := none,
          no_improvement_count := m } := by
  intro m
  induction m with
  | zero => intro _; rfl
  | succ m ih =>
    intro h
    have hm := ih (fun j hj => h j (Nat.lt_succ_of_lt hj))
    have hobj : objAt env m = -999 := h m (Nat.lt_succ_self m)
    simp [simState, simStep, hm, hobj]

theorem iterStep_improve (env : LoopEnv) (i : ℕ) (st : LoopState)
    (h : st.best_objective < objAt env i) :
    (iterStep env i st).best_objective = objAt env i ∧
      (iterStep env i st).best_config = some (env.oracle i) ∧
      (iterStep env i st).best_metrics = some (trialAt env i) ∧
      (iterStep env i st).no_improvement_count = 0 := by
  unfold objAt at h
  unfold iterStep
  dsimp only
  rw [if_pos h]
  refine ⟨rfl, rfl, ?_, rfl⟩
  unfold trialAt objAt
  rfl

theorem iterStep_noimprove (env : LoopEnv) (i : ℕ) (st : LoopState)
    (h : ¬ st.best_objective < objAt env i) :
    (iterStep env i st).best_objective = st.best_objective ∧
      (iterStep env i st).best_config = st.best_config ∧
      (iterStep env i st).best_metrics = st.best_metrics ∧
      (iterStep env i st).no_improvement_count =
        st.no_improvement_count + 1 := by
  unfold objAt at h
  unfold iterStep
  dsimp only
  rw [if_neg h]
  exact ⟨rfl, rfl, rfl, rfl⟩

theorem savesUpTo_mem (env : LoopEnv) :
    ∀ k m, 0 < m → m % 10 = 0 → m ≤ k →
      snapAt env (m - 1) ∈ savesUpTo env k := by
  intro k
  induction k with
  | zero => intro m h1 _ h3; exact absurd h3 (by omega)
  | succ k ih =>
    intro m h1 h2 h3
    rw [savesUpTo]
    rcases Nat.lt_succ_iff_lt_or_eq.mp (Nat.lt_succ_of_le h3) with h | rfl
    · exact List.mem_append_left _ (ih m h1 h2 (Nat.lt_succ_iff.mp h))
    · rw [if_pos h2, Nat.add_sub_cancel]
      exact List.mem_append_right _ (List.mem_singleton_self _)

theorem run_patience_spec (patience n : ℕ) (hp : 1 ≤ patience)
    (env : LoopEnv) :
    ∃ k, k ≤ n ∧
      (run_optimization_patience patience n env).all_results = trace env k ∧
      (run_optimization_patience patience n env).tells = tellsOf env k ∧
      (run_optimization_patience patience n env).best_objective =
        (simState env k).best_objective ∧
      (run_optimization_patience patience n env).best_config =
        (simState env k).best_config ∧
      (run_optimization_patience patience n env).best_metrics =
        (simState env k).best_metrics ∧
      (run_optimization_patience patience n env).no_improvement_count =
        (simState env k).no_improvement_count ∧
      (∀ m, m < k → (simState env m).no_improvement_count < patience) ∧
      (((run_optimization_patience patience n env).outcome =
            Outcome.stoppedBudget ∧
          k = n ∧
          (simState env k).no_improvement_count < patience ∧
          (run_optimization_patience patience n env).saves =
            savesUpTo env k ∧
          ChkOk env 0 k) ∨
       ((run_optimization_patience patience n env).outcome =
            Outcome.stoppedEarly ∧
          0 < k ∧
          (simState env k).no_improvement_count = patience ∧
          (run_optimization_patience patience n env).saves =
            savesUpTo env (k - 1) ∧
          ChkOk env 0 (k - 1)) ∨
       ((run_optimization_patience patience n env).outcome =
            Outcome.aborted "write failed" ∧
          0 < k ∧ k % 10 = 0 ∧
          (env.saveEnv (k - 1)).writeOk = false ∧
          (simState env k).no_improvement_count < patience ∧
          (run_optimization_patience patience n env).saves =
            savesUpTo env (k - 1) ∧
          ChkOk env 0 (k - 1))) := by
  have hA : Aligned env 0 initialState := ⟨rfl, rfl, rfl, rfl⟩
  have hcnt : initialState.no_improvement_count < patience := hp
  obtain ⟨k, _, hk2, h1, h2, h3, h4, h5, h6, hbet, hdisj⟩ :=
    runLoopAux_spec patience env n 0 initialState hA hcnt
  refine ⟨k, by omega, h1, h2, h3, h4, h5, h6,
    fun m hm => hbet m (Nat.zero_le m) hm, ?_⟩
  rcases hdisj with ⟨d1, d2, d3, d4, d5⟩ | h | h
  · exact Or.inl ⟨d1, by omega, d3, d4, d5⟩
  · exact Or.inr (Or.inl h)
  · exact Or.inr (Or.inr h)

theorem penalty_run (patience n : ℕ) (hp : 1 ≤ patience) (env : LoopEnv)
    (hs : SavesOk env)
    (hpen : ∀ i, i < n → objAt env i = -999) :
    (run_optimization_patience patience n env).best_config = none ∧
    (run_optimization_patience patience n env).best_objective = -999 ∧
    (n < patience →
      (run_optimization_patience patience n env).outcome =
        Outcome.stoppedBudget ∧
      (run_optimization_patience patience n env).all_results.length = n) ∧
    (patience ≤ n →
      (run_optimization_patience patience n env).outcome =
        Outcome.stoppedEarly ∧
      (run_optimization_patience patience n env).all_results.length =
        patience) := by
  obtain ⟨k, hkn, h1, h2, h3, h4, h5, h6, hbet, hdisj⟩ :=
    run_patience_spec patience n hp env
  have hsim : simState env k =
      { best_objective := -999, best_config := none, best_metrics := none,
        no_improvement_count := k } :=
    simState_allPenalty env k (fun j hj => hpen j (lt_of_lt_of_le hj hkn))
  have hlen : (run_optimization_patience patience n env).all_results.length =
      k := by
    rw [h1, trace_length]
  have hbc : (run_optimization_patience patience n env).best_config =
      none := by
    rw [h4, hsim]
  have hbo : (run_optimization_patience patience n env).best_objective =
      -999 := by
    rw [h3, hsim]
  have hcntk : (simState env k).no_improvement_count = k := by rw [hsim]
  refine ⟨hbc, hbo, ?_, ?_⟩
  · intro hn
    rcases hdisj with ⟨d1, d2, _⟩ | ⟨_, _, d3, _⟩ | ⟨_, _, _, d4, _⟩
    · exact ⟨d1, by omega⟩
    · rw [hcntk] at d3
      exact absurd d3 (by omega)
    · have hw := hs (k - 1)
      rw [d4] at hw
      exact absurd hw Bool.false_ne_true
  · intro hn
    rcases hdisj with ⟨_, d2, d3, _⟩ | ⟨d1, _, d3, _⟩ | ⟨_, _, _, d4, _⟩
    · rw [hcntk] at d3
      exact absurd d3 (by omega)
    · rw [hcntk] at d3
      exact ⟨d1, by omega⟩
    · have hw := hs (k - 1)
      rw [d4] at hw
      exact absurd hw Bool.false_ne_true

/-! ## Claim C1 -/

/-- C1 counterexample: in a run in which every one of the 150 candidates is
infeasible, with the default budget `n_iter = 150` and the default patience
25, best-so-far indeed stays unset but the loop does NOT terminate with the
budget-exhausted outcome: the no-improvement counter grows every iteration
and the early-stopping break fires first, refuting the claim at this concrete
input. -/
theorem claim_C1_counterexample :
    (∀ i, i < 150 → validate_config (envAllInfeasible.oracle i) = false) ∧
    (run_optimization 150 envAllInfeasible).best_config = none ∧
    (run_optimization 150 envAllInfeasible).outcome ≠
      Outcome.stoppedBudget := by
  have hval : ∀ i, i < 150 →
      validate_config (envAllInfeasible.oracle i) = false := by
    intro i _
    show validate_config infeasibleConfig = false
    norm_num [validate_config, infeasibleConfig]
  have hpen : ∀ i, i < 150 → objAt envAllInfeasible i = -999 :=
    fun i hi => objAt_penalty _ i (Or.inl (hval i hi))
  obtain ⟨hbc, hbo, _, hge⟩ :=
    penalty_run 25 150 (by norm_num) envAllInfeasible (fun j => rfl) hpen
  have hout := (hge (by norm_num)).1
  rw [run_optimization_eq]
  refine ⟨hval, hbc, ?_⟩
  rw [hout]
  exact fun hcontra => Outcome.noConfusion hcontra

/-- C1 (amended): if every candidate across the budget is infeasible or fails
evaluation (and checkpoint writes succeed), `run_optimization` terminates
with `best_config` unset and `main` completes without crashing, reporting
"no valid configuration found". However the terminal outcome is
budget-exhaustion only when `n_iter < 25`: for every `n_iter >= 25`
(including the default 150) the loop instead stops via the early-stopping
break at exactly iteration 25, because every penalized iteration increments
the no-improvement counter and the counter reaches the patience 25 before
the budget is exhausted. -/
theorem claim_C1_amended (n : ℕ) (env : LoopEnv) (hs : SavesOk env)
    (fse : SaveEnv) (hfse : fse.writeOk = true)
    (hbad : ∀ i, i < n → validate_config (env.oracle i) = false ∨
      (evaluate_config (env.evalEnv i)).error.isSome = true) :
    (run_optimization n env).best_config = none ∧
    mainReport (run_optimization n env) = Report.noValidConfig ∧
    (∃ mr, main_run n env fse = Except.ok mr ∧
      mr.report = Report.noValidConfig) ∧
    (n < 25 → (run_optimization n env).outcome = Outcome.stoppedBudget ∧
      (run_optimization n env).all_results.length = n) ∧
    (25 ≤ n → (run_optimization n env).outcome = Outcome.stoppedEarly ∧
      (run_optimization n env).all_results.length = 25) := by
  have hpen : ∀ i, i < n → objAt env i = -999 :=
    fun i hi => objAt_penalty env i (hbad i hi)
  obtain ⟨hbc, hbo, hlt, hge⟩ :=
    penalty_run 25 n (by norm_num) env hs hpen
  rw [run_optimization_eq]
  have hrep : mainReport (run_optimization_patience 25 n env) =
      Report.noValidConfig := by
    simp [mainReport, hbc]
  have hout : (run_optimization_patience 25 n env).outcome =
      Outcome.stoppedBudget ∨
      (run_optimization_patience 25 n env).outcome =
        Outcome.stoppedEarly := by
    rcases lt_or_ge n 25 with h | h
    · exact Or.inl (hlt h).1
    · exact Or.inr (hge h).1
  refine ⟨hbc, hrep, ?_, hlt, hge⟩
  have hsr : save_results (run_optimization_patience 25 n env).all_results
      (run_optimization_patience 25 n env).best_config
      (run_optimization_patience 25 n env).best_metrics fse =
      Except.ok
        { best_config := (run_optimization_patience 25 n env).best_config
          best_objective :=
            (run_optimization_patience 25 n env).best_metrics.map
              (fun t => t.objective)
          all_results := (run_optimization_patience 25 n env).all_results
          plot_ok := fse.plotOk } := by
    simp [save_results, hfse]
  refine ⟨{ run := run_optimization_patience 25 n env
            finalSave :=
              { best_config := (run_optimization_patience 25 n env).best_config
                best_objective :=
                  (run_optimization_patience 25 n env).best_metrics.map
                    (fun t => t.objective)
                all_results :=
                  (run_optimization_patience 25 n env).all_results
                plot_ok := fse.plotOk }
            report := Report.noValidConfig }, ?_, rfl⟩
  unfold main_run
  rcases hout with h | h
  · dsimp only
    rw [run_optimization_eq, h]
    dsimp only
    rw [hsr]
    dsimp only
    rw [← hrep]
  · dsimp only
    rw [run_optimization_eq, h]
    dsimp only
    rw [hsr]
    dsimp only
    rw [← hrep]

/-- C1 witness: the amended theorem applied to the concrete all-infeasible
run with the default budget. -/
theorem claim_C1_witness :
    (run_optimization 150 envAllInfeasible).best_config = none ∧
    mainReport (run_optimization 150 envAllInfeasible) =
      Report.noValidConfig ∧
    (run_optimization 150 envAllInfeasible).outcome =
      Outcome.stoppedEarly := by
  have h := claim_C1_amended 150 envAllInfeasible (fun j => rfl) saveAllOk rfl
    (fun i _ => Or.inl (by
      show validate_config infeasibleConfig = false
      norm_num [validate_config, infeasibleConfig]))
  exact ⟨h.1, h.2.1, (h.2.2.2.2 (by norm_num)).1⟩

/-! ## Claim C2 -/

/-- C2 counterexample: a one-iteration run whose candidate is infeasible.
The value passed to `optimizer.tell` is the raw penalty 999.0 (the
minimization-space value returned by `evaluate_with_objective`), not the
negated value -999.0 the claim asserts. -/
theorem claim_C2_counterexample :
    validate_config infeasibleConfig = false ∧
    (run_optimization 1 envAllInfeasible).tells =
      [(infeasibleConfig, (999 : ℚ))] ∧
    (999 : ℚ) ≠ -999 := by
  refine ⟨?_, ?_, by norm_num⟩
  · norm_num [validate_config, infeasibleConfig]
  · norm_num [run_optimization, run_optimization_patience,
      EARLY_STOP_PATIENCE, runLoopAux, iterStep, initialState,
      envAllInfeasible, evaluate_with_objective, validate_config,
      infeasibleConfig, evaluate_config, mkResult]

/-- C2 (amended): in every iteration the minimization score passed to
`SurrogateOptimizer.tell` equals the negation of the objective score recorded
for that candidate. For every infeasible candidate and every failed
evaluation, `evaluate_with_objective` returns the fixed penalty 999.0
without invoking `calculate_objective`, so the recorded (maximize-sign)
objective is -999.0 and the surrogate is told the raw penalty 999.0 — not
the value -999.0 the original claim states. -/
theorem claim_C2_amended (n : ℕ) (env : LoopEnv) :
    ((run_optimization n env).tells =
      (run_optimization n env).all_results.map
        (fun t => (t.params, -t.objective))) ∧
    (∀ params o, validate_config params = false →
      evaluate_with_objective params o = 999 ∧
      evaluate_with_objective_instr params o = (999, false)) ∧
    (∀ params o, (evaluate_config o).error.isSome = true →
      evaluate_with_objective params o = 999 ∧
      (evaluate_with_objective_instr params o).2 = false) ∧
    (∀ params o, evaluate_with_objective params o =
      (evaluate_with_objective_instr params o).1) ∧
    (∀ j, j < (run_optimization n env).all_results.length →
      trialAt env j ∈ (run_optimization n env).all_results ∧
      ((validate_config (env.oracle j) = false ∨
          (evaluate_config (env.evalEnv j)).error.isSome = true) →
        (trialAt env j).objective = -999 ∧
        (env.oracle j, (999 : ℚ)) ∈ (run_optimization n env).tells)) := by
  obtain ⟨k, hkn, h1, h2, _, _, _, _, _, _⟩ :=
    run_patience_spec 25 n (by norm_num) env
  rw [run_optimization_eq]
  have hlen : (run_optimization_patience 25 n env).all_results.length = k := by
    rw [h1, trace_length]
  refine ⟨?_, fun params o h => evaluate_with_objective_invalid params o h,
    fun params o h => evaluate_with_objective_error params o h,
    fun params o => evaluate_with_objective_fst_instr params o, ?_⟩
  · rw [h1, h2, tellsOf_eq_map]
  · intro j hj
    rw [hlen] at hj
    refine ⟨by rw [h1]; exact (mem_trace env k _).mpr ⟨j, hj, rfl⟩, ?_⟩
    intro hbad
    have hobj : (trialAt env j).objective = -999 := objAt_penalty env j hbad
    refine ⟨hobj, ?_⟩
    have hmem : trialAt env j ∈ trace env k :=
      (mem_trace env k _).mpr ⟨j, hj, rfl⟩
    have hmem2 := List.mem_map_of_mem
      (f := fun t => (t.params, -t.objective)) hmem
    rw [← tellsOf_eq_map] at hmem2
    have hpair : ((trialAt env j).params, -(trialAt env j).objective) =
        (env.oracle j, (999 : ℚ)) := by
      rw [hobj]
      norm_num [trialAt]
    rw [h2]
    simpa [hpair] using hmem2

/-- C2 witness: the amended theorem applied to a concrete infeasible
candidate. -/
theorem claim_C2_witness :
    evaluate_with_objective infeasibleConfig EvalOutcome.timeout = 999 ∧
    evaluate_with_objective_instr infeasibleConfig EvalOutcome.timeout =
      (999, false) := by
  exact (claim_C2_amended 0 envAllInfeasible).2.1 infeasibleConfig
    EvalOutcome.timeout (by norm_num [validate_config, infeasibleConfig])

/-! ## Claim C3 -/

/-- C3: per-iteration, a strictly improving objective updates best-so-far and
resets the no-improvement counter to 0; otherwise the counter increments by
1. For every configured patience `p >= 1` (the source fixes p = 25), when
checkpoint writes succeed the loop either early-stops or exhausts the budget;
it early-stops exactly at the iteration on which the counter reaches `p`:
the final counter equals `p`, at least `p` trials ran, and at every earlier
iteration the counter was still below `p` (not before, not after). On budget
exhaustion the counter never reached `p` at any iteration. -/
theorem claim_C3 (patience n : ℕ) (hp : 1 ≤ patience) (env : LoopEnv)
    (hs : SavesOk env) :
    (∀ i st, (st.best_objective < objAt env i →
        (iterStep env i st).best_objective = objAt env i ∧
        (iterStep env i st).best_config = some (env.oracle i) ∧
        (iterStep env i st).no_improvement_count = 0) ∧
      (¬ st.best_objective < objAt env i →
        (iterStep env i st).best_objective = st.best_objective ∧
        (iterStep env i st).best_config = st.best_config ∧
        (iterStep env i st).no_improvement_count =
          st.no_improvement_count + 1)) ∧
    ((run_optimization_patience patience n env).outcome =
        Outcome.stoppedEarly ∨
      (run_optimization_patience patience n env).outcome =
        Outcome.stoppedBudget) ∧
    ((run_optimization_patience patience n env).outcome =
        Outcome.stoppedEarly →
      (run_optimization_patience patience n env).no_improvement_count =
        patience ∧
      patience ≤
        (run_optimization_patience patience n env).all_results.length ∧
      (run_optimization_patience patience n env).all_results.length ≤ n ∧
      (simState env
        (run_optimization_patience patience n env).all_results.length
        ).no_improvement_count = patience ∧
      (∀ m,
        m < (run_optimization_patience patience n env).all_results.length →
        (simState env m).no_improvement_count < patience)) ∧
    ((run_optimization_patience patience n env).outcome =
        Outcome.stoppedBudget →
      (run_optimization_patience patience n env).all_results.length = n ∧
      (run_optimization_patience patience n env).no_improvement_count <
        patience ∧
      (∀ m, m ≤ n → (simState env m).no_improvement_count < patience)) := by
  obtain ⟨k, hkn, h1, h2, h3, h4, h5, h6, hbet, hdisj⟩ :=
    run_patience_spec patience n hp env
  have hlen : (run_optimization_patience patience n env).all_results.length =
      k := by
    rw [h1, trace_length]
  refine ⟨?_, ?_, ?_, ?_⟩
  · intro i st
    constructor
    · intro h
      obtain ⟨e1, e2, _, e4⟩ := iterStep_improve env i st h
      exact ⟨e1, e2, e4⟩
    · intro h
      obtain ⟨e1, e2, _, e4⟩ := iterStep_noimprove env i st h
      exact ⟨e1, e2, e4⟩
  · rcases hdisj with ⟨d1, _⟩ | ⟨d1, _⟩ | ⟨_, _, _, d4, _⟩
    · exact Or.inr d1
    · exact Or.inl d1
    · have hw := hs (k - 1)
      rw [d4] at hw
      exact absurd hw Bool.false_ne_true
  · intro hout
    rcases hdisj with ⟨d1, _⟩ | ⟨d1, d2, d3, _⟩ | ⟨_, _, _, d4, _⟩
    · rw [d1] at hout
      exact absurd hout (fun h => Outcome.noConfusion h)
    · have hck := simState_cnt_le env k
      refine ⟨by rw [h6, d3], ?_, by omega, by rw [hlen]; exact d3, ?_⟩
      · rw [hlen]
        omega
      · intro m hm
        rw [hlen] at hm
        exact hbet m hm
    · have hw := hs (k - 1)
      rw [d4] at hw
      exact absurd hw Bool.false_ne_true
  · intro hout
    rcases hdisj with ⟨d1, d2, d3, _⟩ | ⟨d1, _⟩ | ⟨_, _, _, d4, _⟩
    · refine ⟨by omega, by rw [h6]; exact d3, ?_⟩
      intro m hm
      rcases Nat.lt_or_ge m k with h | h
      · exact hbet m h
      · have : m = k := by omega
        subst this
        exact d3
    · rw [d1] at hout
      exact absurd hout (fun h => Outcome.noConfusion h)
    · have hw := hs (k - 1)
      rw [d4] at hw
      exact absurd hw Bool.false_ne_true

/-- C3 witness: with patience 3 and an environment in which no iteration ever
improves, the loop early-stops with final counter exactly 3 after exactly 3
trials. -/
theorem claim_C3_witness :
    (run_optimization_patience 3 10 envAllInfeasible).outcome =
      Outcome.stoppedEarly ∧
    (run_optimization_patience 3 10 envAllInfeasible).no_improvement_count =
      3 ∧
    (run_optimization_patience 3 10 envAllInfeasible).all_results.length =
      3 := by
  have hpen : ∀ i, i < 10 → objAt envAllInfeasible i = -999 :=
    fun i _ => objAt_penalty _ i (Or.inl (by
      show validate_config infeasibleConfig = false
      norm_num [validate_config, infeasibleConfig]))
  obtain ⟨_, _, _, hge⟩ :=
    penalty_run 3 10 (by norm_num) envAllInfeasible (fun j => rfl) hpen
  have hout := hge (by norm_num)
  have h := claim_C3 3 10 (by norm_num) envAllInfeasible (fun j => rfl)
  exact ⟨hout.1, (h.2.2.1 hout.1).1, hout.2⟩

/-! ## Claim C4 -/

/-- C4: `validate_config` returns feasible exactly when both joint
constraints hold: `phase2_end > phase1_end + 3` and the strict chain
`initial_weight < phase1_target < phase2_target < max_weight`; in
particular every candidate with `phase2_end <= phase1_end + 3` is infeasible
regardless of other fields, and every chain violation is infeasible. -/
theorem claim_C4 (params : Config) :
    (validate_config params = true ↔
      (params.phase1_end + 3 < params.phase2_end ∧
       params.initial_weight < params.phase1_target ∧
       params.phase1_target < params.phase2_target ∧
       params.phase2_target < params.max_weight)) ∧
    (params.phase2_end ≤ params.phase1_end + 3 →
      validate_config params = false) ∧
    (¬ (params.initial_weight < params.phase1_target ∧
        params.phase1_target < params.phase2_target ∧
        params.phase2_target < params.max_weight) →
      validate_config params = false) := by
  unfold validate_config
  split_ifs with h1 h2
  · refine ⟨⟨fun h => absurd h (by simp),
      fun hbig => absurd h1 (not_le.mpr hbig.1)⟩, fun _ => rfl, fun _ => rfl⟩
  · exact ⟨⟨fun _ => ⟨not_le.mp h1, h2⟩, fun _ => rfl⟩,
      fun hle => absurd hle h1, fun hnc => absurd h2 hnc⟩
  · refine ⟨⟨fun h => absurd h (by simp),
      fun hbig => absurd ⟨hbig.2.1, hbig.2.2.1, hbig.2.2.2⟩ h2⟩,
      fun _ => rfl, fun _ => rfl⟩

/-- C4 witness: the theorem applied to one concrete infeasible and one
concrete feasible candidate. -/
theorem claim_C4_witness :
    validate_config infeasibleConfig = false ∧
    validate_config feasibleConfig = true := by
  constructor
  · exact (claim_C4 infeasibleConfig).2.1 (by norm_num [infeasibleConfig])
  · exact (claim_C4 feasibleConfig).1.mpr (by norm_num [feasibleConfig])

/-! ## Claim C5 -/

/-- C5: `calculate_objective(correlation, rmse)` equals
`correlation*0.6 + (0.80 - rmse)*0.3 - max(0, (rmse - 0.75)*2.0)`; the
penalty term is 0 for `rmse <= 0.75` and equals `2*(rmse - 0.75)` (strictly
increasing in rmse) for `rmse > 0.75`; and the two reference values hold
exactly: `calculate_objective(1.0, 0.70) = 0.63` and
`calculate_objective(0.5, 0.90) = -0.03`. -/
theorem claim_C5 (correlation rmse : ℚ) :
    calculate_objective correlation rmse =
      correlation * (6/10) + ((8/10) - rmse) * (3/10) -
        max 0 ((rmse - (3/4)) * 2) ∧
    (rmse ≤ 3/4 → max 0 ((rmse - (3/4)) * 2) = 0) ∧
    (3/4 < rmse → max 0 ((rmse - (3/4)) * 2) = 2 * (rmse - 3/4)) ∧
    (∀ r2, 3/4 < rmse → rmse < r2 →
      max 0 ((rmse - (3/4)) * 2) < max 0 ((r2 - (3/4)) * 2)) ∧
    calculate_objective 1 (7/10) = 63/100 ∧
    calculate_objective (1/2) (9/10) = -(3/100) := by
  refine ⟨rfl, ?_, ?_, ?_, ?_, ?_⟩
  · intro h
    exact max_eq_left (by linarith)
  · intro h
    rw [max_eq_right (by linarith)]
    ring
  · intro r2 h1 h2
    rw [max_eq_right (by linarith), max_eq_right (by linarith)]
    linarith
  · show calculate_objective 1 (7/10) = 63/100
    unfold calculate_objective CORRELATION_WEIGHT RMSE_WEIGHT
      RMSE_PENALTY_THRESHOLD
    rw [show ((7 : ℚ)/10 - 3/4) * 2 = -(1/10) by norm_num,
      max_eq_left (by norm_num : -(1/10 : ℚ) ≤ 0)]
    norm_num
  · show calculate_objective (1/2) (9/10) = -(3/100)
    unfold calculate_objective CORRELATION_WEIGHT RMSE_WEIGHT
      RMSE_PENALTY_THRESHOLD
    rw [show ((9 : ℚ)/10 - 3/4) * 2 = 3/10 by norm_num,
      max_eq_right (by norm_num : (0 : ℚ) ≤ 3/10)]
    norm_num

/-- C5 witness: the theorem evaluated at the reference inputs, discharging
the penalty-branch hypotheses at rmse = 0.9. -/
theorem claim_C5_witness :
    calculate_objective 1 (7/10) = 63/100 ∧
    calculate_objective (1/2) (9/10) = -(3/100) ∧
    max 0 (((9 : ℚ)/10 - (3/4)) * 2) = 2 * ((9 : ℚ)/10 - 3/4) := by
  have h := claim_C5 (1/2) (9/10)
  exact ⟨(claim_C5 1 (7/10)).2.2.2.2.1, h.2.2.2.2.2,
    h.2.2.1 (by norm_num)⟩

/-! ## Claim C8 -/

/-- C8 counterexample: the stated domain (`correlation ∈ [0,1]`,
`rmse >= 0`) does NOT bound the objective strictly above -999: at
correlation 0, rmse 436 (inside the stated domain) the objective is
-1001.06, which is below -999, refuting the claimed two-sided bound. -/
theorem claim_C8_counterexample :
    (0 : ℚ) ≤ 0 ∧ (0 : ℚ) ≤ 1 ∧ (0 : ℚ) ≤ 436 ∧
    calculate_objective 0 436 = -(100106/100) ∧
    ¬ (-999 < calculate_objective 0 436) := by
  have hval : calculate_objective 0 436 = -(100106/100) := by
    unfold calculate_objective CORRELATION_WEIGHT RMSE_WEIGHT
      RMSE_PENALTY_THRESHOLD
    rw [show ((436 : ℚ) - 3/4) * 2 = 8705/10 by norm_num,
      max_eq_right (by norm_num : (0 : ℚ) ≤ 8705/10)]
    norm_num
  refine ⟨by norm_num, by norm_num, by norm_num, hval, ?_⟩
  rw [hval]
  norm_num

/-- C8 (amended): for correlation in [0,1] and rmse >= 0 the objective is
bounded above by 0.84, hence strictly below the 999.0 sentinel; but the lower
bound -999 < objective requires additionally bounding rmse (rmse <= 435
suffices; the original stated domain rmse >= 0 is not enough, as the
counterexample at rmse = 436 shows). Under that rmse bound every
successfully evaluated trial's objective strictly exceeds the loop's initial
best of -999.0. -/
theorem claim_C8_amended (c r : ℚ) (hc0 : 0 ≤ c) (hc1 : c ≤ 1)
    (hr : 0 ≤ r) :
    calculate_objective c r < 999 ∧
    calculate_objective c r ≤ 84/100 ∧
    (r ≤ 435 → -999 < calculate_objective c r) ∧
    initialState.best_objective = -999 ∧
    (r ≤ 435 → initialState.best_objective < calculate_objective c r) := by
  have key : calculate_objective c r < 999 ∧
      calculate_objective c r ≤ 84/100 ∧
      (r ≤ 435 → -999 < calculate_objective c r) := by
    unfold calculate_objective CORRELATION_WEIGHT RMSE_WEIGHT
      RMSE_PENALTY_THRESHOLD
    dsimp only
    rcases le_total ((r - 3/4) * 2) 0 with h | h
    · rw [max_eq_left h]
      exact ⟨by nlinarith, by nlinarith, fun h2 => by nlinarith⟩
    · rw [max_eq_right h]
      exact ⟨by nlinarith, by nlinarith, fun h2 => by nlinarith⟩
  exact ⟨key.1, key.2.1, key.2.2, rfl, fun h2 => key.2.2 h2⟩

/-- C8 witness: the amended theorem applied at correlation 0.5, rmse 0.5. -/
theorem claim_C8_witness :
    calculate_objective (1/2) (1/2) < 999 ∧
    -999 < calculate_objective (1/2) (1/2) := by
  have h := claim_C8_amended (1/2) (1/2) (by norm_num) (by norm_num)
    (by norm_num)
  exact ⟨h.1, h.2.2.1 (by norm_num)⟩

/-! ## Claim C10 -/

/-- C10: `evaluate_config` is total at its interface: on every failure path
(nonzero exit status, no matching result file, timeout, or any parsing/IO
exception) the returned record carries an `error` entry together with the
fixed failure metrics correlation = 0.0 and rmse = mae = regret = 999.0; on
success it carries exactly the parsed correlation, rmse, mae, and nested
avgRegret values with no `error` entry, and the `error` entry is absent
exactly on success. -/
theorem claim_C10 (o : EvalOutcome) :
    ((∀ m, o ≠ EvalOutcome.success m) →
      (evaluate_config o).correlation = 0 ∧
      (evaluate_config o).rmse = 999 ∧
      (evaluate_config o).mae = 999 ∧
      (evaluate_config o).regret = 999 ∧
      ∃ e, (evaluate_config o).error = some e) ∧
    (∀ m, o = EvalOutcome.success m →
      evaluate_config o =
        { correlation := m.correlation, rmse := m.rmse, mae := m.mae,
          regret := m.regret, error := none }) ∧
    ((evaluate_config o).error = none ↔
      ∃ m, o = EvalOutcome.success m) := by
  cases o <;> simp [evaluate_config]

/-- C10 witness: the theorem applied to the timeout failure path and to a
concrete success. -/
theorem claim_C10_witness :
    (evaluate_config EvalOutcome.timeout).correlation = 0 ∧
    (evaluate_config EvalOutcome.timeout).rmse = 999 ∧
    (evaluate_config (EvalOutcome.success
      { correlation := 1/2, rmse := 1/2, mae := 0, regret := 0 })).error =
      none := by
  have h := (claim_C10 EvalOutcome.timeout).1
    (fun m hm => EvalOutcome.noConfusion hm)
  have h2 := (claim_C10 (EvalOutcome.success
    { correlation := 1/2, rmse := 1/2, mae := 0,
      regret := 0 })).2.2.mpr ⟨_, rfl⟩
  exact ⟨h.1, h.2.1, h2⟩

/-! ## Claim C7 -/

/-- C7 counterexample: with a 15-iteration budget and an environment whose
checkpoint JSON writes fail, the loop does NOT skip the failed checkpoint
and continue: the write error raised at the first checkpoint (1-based
iteration 10) propagates and aborts the run after exactly 10 of the 15
iterations, refuting the claim that a persistence failure never aborts the
loop. -/
theorem claim_C7_counterexample :
    (run_optimization 15 envBadSave).outcome =
      Outcome.aborted "write failed" ∧
    (run_optimization 15 envBadSave).all_results.length = 10 ∧
    (run_optimization 15 envBadSave).all_results.length ≠ 15 := by
  have hpen : ∀ i, i < 15 → objAt envBadSave i = -999 :=
    fun i _ => objAt_penalty _ i (Or.inl (by
      show validate_config infeasibleConfig = false
      norm_num [validate_config, infeasibleConfig]))
  obtain ⟨k, hkn, h1, _, _, _, _, h6, _, hdisj⟩ :=
    run_patience_spec 25 15 (by norm_num) envBadSave
  have hsim : simState envBadSave k =
      { best_objective := -999, best_config := none, best_metrics := none,
        no_improvement_count := k } :=
    simState_allPenalty envBadSave k
      (fun j hj => hpen j (lt_of_lt_of_le hj hkn))
  have hcntk : (simState envBadSave k).no_improvement_count = k := by
    rw [hsim]
  rw [run_optimization_eq]
  have hlen : (run_optimization_patience 25 15 envBadSave
      ).all_results.length = k := by
    rw [h1, trace_length]
  rcases hdisj with ⟨_, d2, d3, _, d5⟩ | ⟨_, _, d3, _⟩ |
      ⟨d1, d2, d3, _, _, _, _⟩
  · have hw := d5 9 (by omega) (by omega) (by norm_num)
    rw [show (envBadSave.saveEnv 9).writeOk = false from rfl] at hw
    exact absurd hw Bool.false_ne_true
  · rw [hcntk] at d3
    exact absurd d3 (by omega)
  · have hk10 : k = 10 := by omega
    exact ⟨d1, by omega, by omega⟩

/-- C7 (amended): a failure during convergence-plot creation is caught and
merely logged: `save_results` still returns the written snapshot. But a
failure to open or write the JSON results file raises out of
`save_results` (the call is not guarded by any handler), aborting the
optimization loop — the loop does not skip the checkpoint and continue.
When every checkpoint write succeeds the loop never aborts. -/
theorem claim_C7_amended (n : ℕ) (env : LoopEnv) (hs : SavesOk env) :
    (∀ trials bc bm po, save_results trials bc bm
        { writeOk := true, plotOk := po } =
      Except.ok
        { best_config := bc
          best_objective := bm.map (fun t => t.objective)
          all_results := trials
          plot_ok := po }) ∧
    (∀ trials bc bm po, save_results trials bc bm
        { writeOk := false, plotOk := po } =
      Except.error "write failed") ∧
    (∀ e, (run_optimization n env).outcome ≠ Outcome.aborted e) := by
  refine ⟨fun trials bc bm po => rfl, fun trials bc bm po => rfl, ?_⟩
  intro e hcon
  rw [run_optimization_eq] at hcon
  obtain ⟨k, _, _, _, _, _, _, _, _, hdisj⟩ :=
    run_patience_spec 25 n (by norm_num) env
  rcases hdisj with ⟨d1, _⟩ | ⟨d1, _⟩ | ⟨_, _, _, d4, _⟩
  · rw [d1] at hcon
    exact Outcome.noConfusion hcon
  · rw [d1] at hcon
    exact Outcome.noConfusion hcon
  · have hw := hs (k - 1)
    rw [d4] at hw
    exact absurd hw Bool.false_ne_true

/-- C7 witness: a skipped plot does not prevent the snapshot, and a run with
all checkpoint writes succeeding never aborts. -/
theorem claim_C7_witness :
    save_results [] none none { writeOk := true, plotOk := false } =
      Except.ok
        { best_config := none, best_objective := none, all_results := [],
          plot_ok := false } ∧
    (run_optimization 5 envAllInfeasible).outcome ≠
      Outcome.aborted "write failed" := by
  have h := claim_C7_amended 5 envAllInfeasible (fun j => rfl)
  exact ⟨h.1 [] none none false, h.2.2 "write failed"⟩

/-! ## Claim C9 -/

/-- C9: throughout `run_optimization` the best-so-far state is monotone:
`best_objective` never decreases from one iteration to the next,
`best_config` once set is never reset to `None`, after every iteration
`best_objective` equals the maximum of the initial -999.0 and the objectives
of all trials recorded so far, and `best_config`/`best_metrics` identify the
first trial attaining that maximum (when it exceeds the initial value;
`best_config` is `None` exactly when no trial ever exceeded -999.0). -/
theorem claim_C9 (n : ℕ) (env : LoopEnv) :
    (run_optimization n env).all_results =
      trace env (run_optimization n env).all_results.length ∧
    (run_optimization n env).best_objective =
      (simState env
        (run_optimization n env).all_results.length).best_objective ∧
    (run_optimization n env).best_config =
      (simState env (run_optimization n env).all_results.length).best_config ∧
    (∀ m, (simState env m).best_objective ≤
      (simState env (m + 1)).best_objective) ∧
    (∀ m c, (simState env m).best_config = some c →
      ∃ c2, (simState env (m + 1)).best_config = some c2) ∧
    (∀ m, m ≤ (run_optimization n env).all_results.length →
      (simState env m).best_objective =
        (((run_optimization n env).all_results.take m).map
          (fun t => t.objective)).foldl max (-999)) ∧
    ((run_optimization n env).best_objective =
      ((run_optimization n env).all_results.map
        (fun t => t.objective)).foldl max (-999)) ∧
    ((run_optimization n env).best_config = none ↔
      (run_optimization n env).best_objective = -999) ∧
    (∀ c, (run_optimization n env).best_config = some c →
      ∃ j, j < (run_optimization n env).all_results.length ∧
        c = env.oracle j ∧
        objAt env j = (run_optimization n env).best_objective ∧
        (run_optimization n env).best_metrics = some (trialAt env j) ∧
        ∀ i, i < j → objAt env i <
          (run_optimization n env).best_objective) := by
  rw [run_optimization_eq]
  obtain ⟨k, hkn, h1, h2, h3, h4, h5, h6, hbet, hdisj⟩ :=
    run_patience_spec 25 n (by norm_num) env
  have hlen : (run_optimization_patience 25 n env).all_results.length =
      k := by
    rw [h1, trace_length]
  rw [hlen]
  refine ⟨h1, h3, h4, simState_best_mono env, simState_config_mono env,
    ?_, ?_, ?_, ?_⟩
  · intro m hm
    rw [h1, trace_take env k m hm]
    exact simState_best_eq_foldl env m
  · rw [h1, h3]
    exact simState_best_eq_foldl env k
  · rw [h4, h3]
    exact simState_config_none_iff env k
  · intro c hc
    rw [h4] at hc
    obtain ⟨j, hj, hcj, hobj, hmet, hfirst⟩ :=
      simState_first_attainer env k c hc
    refine ⟨j, hj, hcj, by rw [h3]; exact hobj, by rw [h5]; exact hmet, ?_⟩
    intro i2 hi2
    rw [h3]
    exact hfirst i2 hi2

/-- C9 witness: the theorem applied to a concrete run and a concrete
iteration step. -/
theorem claim_C9_witness :
    (simState envAllInfeasible 7).best_objective ≤
      (simState envAllInfeasible 8).best_objective ∧
    ((run_optimization 5 envAllInfeasible).best_config = none ↔
      (run_optimization 5 envAllInfeasible).best_objective = -999) := by
  have h := claim_C9 5 envAllInfeasible
  exact ⟨h.2.2.2.1 7, h.2.2.2.2.2.2.2.1⟩

/-! ## Analysis of the improve-then-fail environment -/

theorem envITF_objAt_ne (i : ℕ) (hi : i ≠ 4) :
    objAt envImproveThenFail i = -999 := by
  apply objAt_penalty
  right
  show (evaluate_config (envImproveThenFail.evalEnv i)).error.isSome = true
  simp [envImproveThenFail, hi, evaluate_config]

theorem envITF_objAt_4 : objAt envImproveThenFail 4 = 39/100 := by
  have hv : validate_config feasibleConfig = true := by
    norm_num [validate_config, feasibleConfig]
  show -(evaluate_with_objective (envImproveThenFail.oracle 4)
    (envImproveThenFail.evalEnv 4)) = 39/100
  have he : envImproveThenFail.evalEnv 4 = EvalOutcome.success
      { correlation := 1/2, rmse := 1/2, mae := 0, regret := 0 } := by
    simp [envImproveThenFail]
  rw [show envImproveThenFail.oracle 4 = feasibleConfig from rfl, he,
    evaluate_with_objective_success feasibleConfig
      (EvalOutcome.success
        { correlation := 1/2, rmse := 1/2, mae := 0, regret := 0 })
      hv rfl, neg_neg]
  simp only [evaluate_config]
  unfold calculate_objective CORRELATION_WEIGHT RMSE_WEIGHT
    RMSE_PENALTY_THRESHOLD
  rw [show ((1 : ℚ)/2 - 3/4) * 2 = -(1/2) by norm_num,
    max_eq_left (by norm_num : -(1/2 : ℚ) ≤ 0)]
  norm_num

theorem envITF_simState (m : ℕ) :
    (m ≤ 4 → simState envImproveThenFail m =
      { best_objective := -999, best_config := none, best_metrics := none,
        no_improvement_count := m }) ∧
    (5 ≤ m → simState envImproveThenFail m =
      { best_objective := 39/100, best_config := some feasibleConfig,
        best_metrics := some (trialAt envImproveThenFail 4),
        no_improvement_count := m - 5 }) := by
  induction m with
  | zero => exact ⟨fun _ => rfl, fun h => absurd h (by omega)⟩
  | succ m ih =>
    constructor
    · intro h
      have hm := ih.1 (by omega)
      have hobj : objAt envImproveThenFail m = -999 :=
        envITF_objAt_ne m (by omega)
      simp [simState, simStep, hm, hobj]
    · intro h
      rcases Nat.lt_or_ge m 5 with h5 | h5
      · have hm4 : m = 4 := by omega
        subst hm4
        have hm := ih.1 (by omega)
        show simStep envImproveThenFail 4 (simState envImproveThenFail 4) = _
        rw [hm]
        unfold simStep
        dsimp only
        rw [envITF_objAt_4, if_pos (by norm_num : (-999 : ℚ) < 39/100)]
        rfl
      · have hm := ih.2 h5
        have hobj : objAt envImproveThenFail m = -999 :=
          envITF_objAt_ne m (by omega)
        simp only [simState, simStep, hm, hobj]
        rw [if_neg (by norm_num : ¬ (39/100 : ℚ) < -999)]
        simp only [SimState.mk.injEq, true_and]
        omega

theorem envITF_run :
    (run_optimization 150 envImproveThenFail).outcome =
      Outcome.stoppedEarly ∧
    (run_optimization 150 envImproveThenFail).all_results.length = 30 ∧
    (run_optimization 150 envImproveThenFail).saves =
      savesUpTo envImproveThenFail 29 := by
  rw [run_optimization_eq]
  obtain ⟨k, hkn, h1, _, _, _, _, h6, hbet, hdisj⟩ :=
    run_patience_spec 25 150 (by norm_num) envImproveThenFail
  have hlen : (run_optimization_patience 25 150 envImproveThenFail
      ).all_results.length = k := by
    rw [h1, trace_length]
  have hcnt : ∀ j, (simState envImproveThenFail j).no_improvement_count =
      if j ≤ 4 then j else j - 5 := by
    intro j
    rcases le_or_lt j 4 with h | h
    · rw [(envITF_simState j).1 h, if_pos h]
    · rw [(envITF_simState j).2 (by omega), if_neg (by omega)]
  rcases hdisj with ⟨_, d2, d3, _⟩ | ⟨d1, _, d3, d4, _⟩ |
      ⟨_, _, _, d4, _⟩
  · rw [hcnt k] at d3
    subst d2
    rw [if_neg (by omega)] at d3
    exact absurd d3 (by omega)
  · rw [hcnt k] at d3
    have h30 : k = 30 := by
      rcases le_or_lt k 4 with h | h
      · rw [if_pos h] at d3
        omega
      · rw [if_neg (by omega)] at d3
        omega
    refine ⟨d1, by rw [hlen, h30], by rw [d4, h30]⟩
  · have hw := (show SavesOk envImproveThenFail from fun j => rfl) (k - 1)
    rw [d4] at hw
    exact absurd hw Bool.false_ne_true

theorem envITF_savesUpTo :
    savesUpTo envImproveThenFail 29 =
      [snapAt envImproveThenFail 9, snapAt envImproveThenFail 19] := by
  norm_num [savesUpTo]

/-! ## Claim C6 -/

/-- C6 counterexample: a run (budget 150, all checkpoint writes succeeding)
whose single improvement is at iteration 5, so the early-stopping break
fires at 1-based iteration 30 — a multiple of 10 the loop reaches. Only two
checkpoints were persisted during the loop (at iterations 10 and 20): the
break at line 264 precedes the line-267 checkpoint, so the iteration-30
checkpoint is skipped, refuting "no checkpoint at a multiple-of-10 iteration
is ever skipped, including the iteration on which the loop terminates". -/
theorem claim_C6_counterexample :
    (run_optimization 150 envImproveThenFail).outcome =
      Outcome.stoppedEarly ∧
    (run_optimization 150 envImproveThenFail).all_results.length = 30 ∧
    (run_optimization 150 envImproveThenFail).saves.map
      (fun s => s.all_results.length) = [10, 20] ∧
    (∀ s, s ∈ (run_optimization 150 envImproveThenFail).saves →
      s.all_results.length ≠ 30) := by
  obtain ⟨ho, hl, hsv⟩ := envITF_run
  refine ⟨ho, hl, ?_, ?_⟩
  · rw [hsv, envITF_savesUpTo]
    simp [snapAt, trace_length]
  · intro s hsm
    rw [hsv, envITF_savesUpTo] at hsm
    rcases List.mem_pair.mp hsm with rfl | rfl <;>
      simp [snapAt, trace_length]

/-- C6 (amended): at every multiple-of-10 1-based iteration the loop
reaches, a checkpoint snapshot is persisted whose recorded best candidate
and best objective equal the loop's in-memory best-so-far at exactly that
iteration — EXCEPT the iteration at which the early-stopping break fires,
whose in-loop checkpoint is skipped (the break at line 264 precedes the
line-267 checkpoint); a persist still occurs unconditionally at termination
in `main`, capturing the terminal state. On budget exhaustion no checkpoint
is skipped, including one at the final iteration. -/
theorem claim_C6_amended (n : ℕ) (env : LoopEnv) (hs : SavesOk env)
    (fse : SaveEnv) (hfse : fse.writeOk = true) :
    ((run_optimization n env).outcome = Outcome.stoppedBudget →
      (run_optimization n env).saves =
        savesUpTo env (run_optimization n env).all_results.length) ∧
    ((run_optimization n env).outcome = Outcome.stoppedEarly →
      (run_optimization n env).saves =
        savesUpTo env ((run_optimization n env).all_results.length - 1)) ∧
    (∀ i, snapAt env i =
      { best_config := (simState env (i + 1)).best_config
        best_objective := (simState env (i + 1)).best_metrics.map
          (fun t => t.objective)
        all_results := trace env (i + 1)
        plot_ok := (env.saveEnv i).plotOk }) ∧
    (∀ i, (simState env (i + 1)).best_metrics.map (fun t => t.objective) =
      (simState env (i + 1)).best_config.map
        (fun _ => (simState env (i + 1)).best_objective)) ∧
    (∀ m, 0 < m → m % 10 = 0 →
      ((run_optimization n env).outcome = Outcome.stoppedBudget →
        m ≤ (run_optimization n env).all_results.length →
        snapAt env (m - 1) ∈ (run_optimization n env).saves) ∧
      ((run_optimization n env).outcome = Outcome.stoppedEarly →
        m < (run_optimization n env).all_results.length →
        snapAt env (m - 1) ∈ (run_optimization n env).saves)) ∧
    (∃ mr, main_run n env fse = Except.ok mr ∧
      mr.finalSave.best_config = (run_optimization n env).best_config ∧
      mr.finalSave.best_objective =
        (run_optimization n env).best_metrics.map (fun t => t.objective) ∧
      mr.finalSave.all_results = (run_optimization n env).all_results) := by
  rw [run_optimization_eq]
  obtain ⟨k, hkn, h1, h2, h3, h4, h5, h6, hbet, hdisj⟩ :=
    run_patience_spec 25 n (by norm_num) env
  have hlen : (run_optimization_patience 25 n env).all_results.length =
      k := by
    rw [h1, trace_length]
  rw [hlen]
  have habort : ∀ msg, (run_optimization_patience 25 n env).outcome ≠
      Outcome.aborted msg := by
    intro msg hcon
    rcases hdisj with ⟨d1, _⟩ | ⟨d1, _⟩ | ⟨_, _, _, d4, _⟩
    · rw [d1] at hcon
      exact Outcome.noConfusion hcon
    · rw [d1] at hcon
      exact Outcome.noConfusion hcon
    · have hw := hs (k - 1)
      rw [d4] at hw
      exact absurd hw Bool.false_ne_true
  refine ⟨?_, ?_, fun i => rfl, fun i => simState_metrics_objective env
    (i + 1), ?_, ?_⟩
  · intro hout
    rcases hdisj with ⟨_, _, _, d4, _⟩ | ⟨d1, _⟩ | ⟨d1, _⟩
    · exact d4
    · rw [d1] at hout
      exact absurd hout (fun hcon => Outcome.noConfusion hcon)
    · rw [d1] at hout
      exact absurd hout (fun hcon => Outcome.noConfusion hcon)
  · intro hout
    rcases hdisj with ⟨d1, _⟩ | ⟨_, _, _, d4, _⟩ | ⟨d1, _⟩
    · rw [d1] at hout
      exact absurd hout (fun hcon => Outcome.noConfusion hcon)
    · exact d4
    · rw [d1] at hout
      exact absurd hout (fun hcon => Outcome.noConfusion hcon)
  · intro m hm0 hm10
    constructor
    · intro hout hmk
      rcases hdisj with ⟨_, _, _, d4, _⟩ | ⟨d1, _⟩ | ⟨d1, _⟩
      · rw [d4]
        exact savesUpTo_mem env k m hm0 hm10 hmk
      · rw [d1] at hout
        exact absurd hout (fun hcon => Outcome.noConfusion hcon)
      · rw [d1] at hout
        exact absurd hout (fun hcon => Outcome.noConfusion hcon)
    · intro hout hmk
      rcases hdisj with ⟨d1, _⟩ | ⟨_, _, _, d4, _⟩ | ⟨d1, _⟩
      · rw [d1] at hout
        exact absurd hout (fun hcon => Outcome.noConfusion hcon)
      · rw [d4]
        exact savesUpTo_mem env (k - 1) m hm0 hm10 (by omega)
      · rw [d1] at hout
        exact absurd hout (fun hcon => Outcome.noConfusion hcon)
  · have hout : (run_optimization_patience 25 n env).outcome =
        Outcome.stoppedBudget ∨
        (run_optimization_patience 25 n env).outcome =
          Outcome.stoppedEarly := by
      rcases hdisj with ⟨d1, _⟩ | ⟨d1, _⟩ | ⟨d1, _⟩
      · exact Or.inl d1
      · exact Or.inr d1
      · exact absurd d1 (habort "write failed")
    have hsr : save_results (run_optimization_patience 25 n env).all_results
        (run_optimization_patience 25 n env).best_config
        (run_optimization_patience 25 n env).best_metrics fse =
        Except.ok
          { best_config := (run_optimization_patience 25 n env).best_config
            best_objective :=
              (run_optimization_patience 25 n env).best_metrics.map
                (fun t => t.objective)
            all_results := (run_optimization_patience 25 n env).all_results
            plot_ok := fse.plotOk } := by
      simp [save_results, hfse]
    refine ⟨{ run := run_optimization_patience 25 n env
              finalSave :=
                { best_config :=
                    (run_optimization_patience 25 n env).best_config
                  best_objective :=
                    (run_optimization_patience 25 n env).best_metrics.map
                      (fun t => t.objective)
                  all_results :=
                    (run_optimization_patience 25 n env).all_results
                  plot_ok := fse.plotOk }
              report :=
                mainReport (run_optimization_patience 25 n env) },
      ?_, rfl, rfl, rfl⟩
    unfold main_run
    rcases hout with h | h
    · dsimp only
      rw [run_optimization_eq, h]
      dsimp only
      rw [hsr]
    · dsimp only
      rw [run_optimization_eq, h]
      dsimp only
      rw [hsr]

/-- C6 witness: the amended theorem applied to a 20-iteration
budget-exhausting run: its snapshot list is exactly the model checkpoint
list, and the iteration-10 snapshot is among the persisted snapshots. -/
theorem claim_C6_witness :
    (run_optimization 20 envAllInfeasible).saves =
      savesUpTo envAllInfeasible
        (run_optimization 20 envAllInfeasible).all_results.length ∧
    snapAt envAllInfeasible 9 ∈ (run_optimization 20 envAllInfeasible).saves := by
  have hpen : ∀ i, i < 20 → objAt envAllInfeasible i = -999 :=
    fun i _ => objAt_penalty _ i (Or.inl (by
      show validate_config infeasibleConfig = false
      norm_num [validate_config, infeasibleConfig]))
  obtain ⟨_, _, hlt, _⟩ :=
    penalty_run 25 20 (by norm_num) envAllInfeasible (fun j => rfl) hpen
  have hout : (run_optimization 20 envAllInfeasible).outcome =
      Outcome.stoppedBudget := by
    rw [run_optimization_eq]
    exact (hlt (by norm_num)).1
  have hlen : (run_optimization 20 envAllInfeasible).all_results.length =
      20 := by
    rw [run_optimization_eq]
    exact (hlt (by norm_num)).2
  have h := claim_C6_amended 20 envAllInfeasible (fun j => rfl) saveAllOk rfl
  refine ⟨h.1 hout, ?_⟩
  exact (h.2.2.2.2.1 10 (by norm_num) (by norm_num)).1 hout
    (by rw [hlen]; norm_num)

end QuizOpt
